import Mathlib

/-!
Shallow embedding of the color_notify Home Assistant integration
(custom_components/color_notify), covering:

* `utils/light_sequence.py` — `ColorInfo`, `_interpolate`,
  `LightSequence.create_from_pattern`, step execution (`_StepOpenLoop`,
  `_StepCloseLoop`, `_StepSetColor`, `_StepDelay`) and `runNextStep`;
* `utils/wrapped_light_state.py` — `WrappedLightState`;
* `light.py` — `_get_top_sequences`, the `_process_sequence_list`
  empty-branch, the ADD-handler peek boost with its `restore_priority`
  callback, the `ACTION_CYCLE_SAME` rotation, and the
  `_wrapped_light_turn_on` / `_wrapped_light_turn_off` pair.

Python numbers (ints and floats used as exact quantities) are modelled as
rationals; Python's `int(x)` conversion is truncation toward zero
(`truncQ`).  Python dicts keyed by loop id resp. entity id are modelled as
insertion-ordered association lists with dict-faithful set/remove
operations.  Fallible code paths (`raise`) are modelled with
`Option`/`Except`.
-/

namespace ColorNotify

/-- Python's `int(x)` applied to an exact rational: truncation toward
zero (`Int.tdiv` is T-rounding division and `q.den` is positive). -/
def truncQ (q : ℚ) : ℤ := q.num.tdiv q.den

/-- Sanity check for the embedding of Python's `int()`: `truncQ` is the
floor for nonnegative arguments and the ceiling for negative ones. -/
theorem truncQ_eq_floor_ceil (q : ℚ) :
    truncQ q = if 0 ≤ q then ⌊q⌋ else ⌈q⌉ := by
  unfold truncQ
  split
  · next h =>
    rw [Rat.floor_def]
    exact Int.tdiv_eq_ediv (Rat.num_nonneg.mpr h) (Int.natCast_nonneg _)
  · next h =>
    have h2 : (0 : ℚ) ≤ -q := by
      have := lt_of_not_ge h
      linarith
    calc q.num.tdiv q.den
        = -((-q.num).tdiv q.den) := by rw [Int.neg_tdiv, Int.neg_neg]
      _ = -((-q).num.tdiv (-q).den) := by norm_num
      _ = -((-q).num / (-q).den) := by
            rw [Int.tdiv_eq_ediv (Rat.num_nonneg.mpr h2) (Int.natCast_nonneg _)]
      _ = -⌊-q⌋ := by rw [Rat.floor_def]
      _ = ⌈q⌉ := by rw [Int.floor_neg, Int.neg_neg]

/-- An rgb triple (`tuple` of three numbers in the Python source). -/
structure RGBv where
  r : ℚ
  g : ℚ
  b : ℚ
deriving DecidableEq

/-- `OFF_RGB` from `const.py`. -/
def OFF_RGB : RGBv := ⟨0, 0, 0⟩

/-- `WARM_WHITE_RGB` from `const.py`. -/
def WARM_WHITE_RGB : RGBv := ⟨255, 249, 216⟩

/-- `MAXIMUM_PRIORITY` from `const.py`. -/
def MAXIMUM_PRIORITY : ℤ := 99999999

/-- `DEFAULT_PRIORITY` from `const.py`. -/
def DEFAULT_PRIORITY : ℤ := 1000

/-- One component of `_interpolate` (light_sequence.py line 26):
`int(t1 + (t2 - t1) * amount)`. -/
def interp1 (t1 t2 amount : ℚ) : ℤ := truncQ (t1 + (t2 - t1) * amount)

/-- `ColorInfo` dataclass (light_sequence.py).  `kelvin` and
`explicit_brightness` are `int | None` in the source, `brightness` and
`transition` are floats. -/
structure ColorInfo where
  rgb : RGBv := WARM_WHITE_RGB
  brightness : ℚ := 100
  kelvin : Option ℤ := none
  transition : Option ℚ := none
  explicit_brightness : Option ℤ := none
deriving DecidableEq

/-- `ColorInfo.interpolated_to` (light_sequence.py lines 42-62). -/
def ColorInfo.interpolated_to (self e : ColorInfo) (amount : ℚ) : ColorInfo :=
  match self.kelvin, e.kelvin with
  | some k1, some k2 =>
    { rgb := self.rgb
      brightness := self.brightness + (e.brightness - self.brightness) * amount
      kelvin := some (truncQ ((k1 : ℚ) + ((k2 : ℚ) - (k1 : ℚ)) * amount))
      transition := none
      explicit_brightness := self.explicit_brightness }
  | _, _ =>
    { rgb := ⟨(interp1 self.rgb.r e.rgb.r amount : ℚ),
              (interp1 self.rgb.g e.rgb.g amount : ℚ),
              (interp1 self.rgb.b e.rgb.b amount : ℚ)⟩
      brightness := (interp1 self.brightness e.brightness amount : ℚ)
      kelvin := none
      transition := none
      explicit_brightness := self.explicit_brightness }

/-- A rational is integer-valued. -/
def isIntQ (q : ℚ) : Prop := q.den = 1

instance (q : ℚ) : Decidable (isIntQ q) := by unfold isIntQ; infer_instance

/-- All rgb components and the brightness of a `ColorInfo` are
integer-valued (as they are for every color produced by the pattern
compiler). -/
def ColorInfo.isIntegral (c : ColorInfo) : Prop :=
  isIntQ c.rgb.r ∧ isIntQ c.rgb.g ∧ isIntQ c.rgb.b ∧ isIntQ c.brightness

instance (c : ColorInfo) : Decidable c.isIntegral := by
  unfold ColorInfo.isIntegral; infer_instance

theorem truncQ_intCast (n : ℤ) : truncQ (n : ℚ) = n := by
  simp [truncQ]

theorem truncQ_of_isIntQ {q : ℚ} (h : isIntQ q) : (truncQ q : ℚ) = q := by
  unfold truncQ
  unfold isIntQ at h
  rw [h, Nat.cast_one, Int.tdiv_one]
  exact (Rat.den_eq_one_iff q).mp h

theorem interp1_zero (t1 t2 : ℚ) : interp1 t1 t2 0 = truncQ t1 := by
  unfold interp1
  ring_nf

theorem interp1_one (t1 t2 : ℚ) : interp1 t1 t2 1 = truncQ t2 := by
  unfold interp1
  ring_nf

/-! ## Sequence interpreter (light_sequence.py) -/

/-- One compiled step of a `LightSequence` (the `_SeqStep` subclasses). -/
inductive SeqStep where
  | setColor (c : ColorInfo)
  | delay (d : ℚ)
  | openLoop (lid : ℕ)
  | closeLoop (lid : ℕ) (cnt : ℤ)
deriving DecidableEq

/-- `_LoopInfo` (light_sequence.py line 184). -/
structure LoopInfo where
  open_idx : ℕ := 0
  loop_cnt : ℕ := 0
deriving DecidableEq

/-- Lookup in an insertion-ordered dict keyed by loop id
(`workspace.data.get(loop_id)`). -/
def dictGet (d : List (ℕ × LoopInfo)) (k : ℕ) : Option LoopInfo :=
  match d with
  | [] => none
  | (k', v) :: rest => if k' = k then some v else dictGet rest k

/-- Assignment `workspace.data[k] = v`: overwrite in place if the key is
present, append otherwise (Python dict semantics). -/
def dictSet (d : List (ℕ × LoopInfo)) (k : ℕ) (v : LoopInfo) :
    List (ℕ × LoopInfo) :=
  match d with
  | [] => [(k, v)]
  | (k', v') :: rest =>
    if k' = k then (k', v) :: rest else (k', v') :: dictSet rest k v

/-- `workspace.data.pop(k)`. -/
def dictPop (d : List (ℕ × LoopInfo)) (k : ℕ) : List (ℕ × LoopInfo) :=
  match d with
  | [] => []
  | (k', v') :: rest => if k' = k then rest else (k', v') :: dictPop rest k

/-- `_SeqWorkspace` (light_sequence.py line 192). -/
structure Workspace where
  next_idx : ℕ := 0
  data : List (ℕ × LoopInfo) := []
  color : ColorInfo := {}
deriving DecidableEq

/-- `_SeqStep.execute` for each step kind, given the step's own index
within the sequence (`self.idx`).  `closeLoop` with no recorded loop info
raises `ValueError` in the source, modelled as `none`. -/
def execStep (idx : ℕ) (s : SeqStep) (w : Workspace) : Option Workspace :=
  match s with
  | .setColor c => some { w with color := c }
  | .delay _ => some w
  | .openLoop lid =>
    match dictGet w.data lid with
    | some _ => some w
    | none => some { w with data := dictSet w.data lid { open_idx := idx } }
  | .closeLoop lid cnt =>
    match dictGet w.data lid with
    | none => none
    | some info =>
      let info' : LoopInfo := { info with loop_cnt := info.loop_cnt + 1 }
      if cnt < 0 ∨ (info'.loop_cnt : ℤ) ≤ cnt then
        some { w with data := dictSet w.data lid info', next_idx := info.open_idx }
      else
        some { w with data := dictPop w.data lid }

/-- `LightSequence`: compiled steps plus runtime workspace. -/
structure LightSequence where
  steps : List SeqStep
  ws : Workspace
  loops_forever : Bool
deriving DecidableEq

/-- `LightSequence.runNextStep` (light_sequence.py lines 88-95): returns
the updated sequence and the done flag, or `none` if the executed step
raised. -/
def LightSequence.runNextStep (seq : LightSequence) :
    Option (LightSequence × Bool) :=
  if seq.steps.length ≤ seq.ws.next_idx then some (seq, true)
  else
    match seq.steps.get? seq.ws.next_idx with
    | none => none
    | some st =>
      match execStep seq.ws.next_idx st { seq.ws with next_idx := seq.ws.next_idx + 1 } with
      | none => none
      | some w' => some ({ seq with ws := w' }, decide (seq.steps.length ≤ w'.next_idx))

/-- Run-to-completion driver (the `while not done` loop of
`_NotificationSequence._worker_func`), recording each executed step, with
fuel to bound the run. -/
def runSteps : ℕ → LightSequence → List SeqStep
  | 0, _ => []
  | fuel + 1, seq =>
    if seq.steps.length ≤ seq.ws.next_idx then []
    else
      match seq.steps.get? seq.ws.next_idx with
      | none => []
      | some st =>
        match execStep seq.ws.next_idx st { seq.ws with next_idx := seq.ws.next_idx + 1 } with
        | none => []
        | some w' => st :: runSteps fuel { seq with ws := w' }

/-- Number of times a run of the sequence executes a set-color step with
value `X`. -/
def countColorSets (X : ColorInfo) (fuel : ℕ) (seq : LightSequence) : ℕ :=
  (runSteps fuel seq).countP (fun s => decide (s = SeqStep.setColor X))

/-! ### Pattern compiler (`LightSequence.create_from_pattern`) -/

/-- The parsed fields of a JSON-ish pattern string (the `item_dict` reads
in light_sequence.py lines 135-143).  `rgb` is the merged
`item_dict.get(ATTR_RGB_COLOR, item_dict.get(CONF_RGB))`. -/
structure JsonStep where
  rgb : Option RGBv := none
  kelvin : Option ℤ := none
  transition : Option ℚ := none
  brightness : Option ℤ := none
  delay : Option ℚ := none
deriving DecidableEq

/-- One item of a pattern: a `ColorInfo` object, the loop-open marker
`"["`, a loop-close marker `"]"`/`"],N"` (with its parsed optional
count), a JSON color step, or an unparseable string. -/
inductive PatternItem where
  | colorObj (c : ColorInfo)
  | openMarker
  | closeMarker (n : Option ℤ)
  | jsonStep (j : JsonStep)
  | badJson
deriving DecidableEq

/-- The exceptions `create_from_pattern` can raise, each carrying exactly
the number interpolated into its message. -/
inductive CompileError where
  | jsonError (entry : ℕ)
  | missingColor (entry : ℕ)
  | closeNoOpen (entry : ℕ)
  | loopNotClosed (n : ℕ)
deriving DecidableEq

/-- Folding state of the compile loop: emitted steps, first color seen,
next fresh loop id, stack of open loop ids (head = innermost), and the
forever flag. -/
structure CompState where
  steps : List SeqStep := []
  initial : Option ColorInfo := none
  nextLoopId : ℕ := 1
  stack : List ℕ := []
  forever : Bool := false
deriving DecidableEq

/-- The `for idx, item in enumerate(pattern)` loop of
`create_from_pattern` (light_sequence.py lines 109-160). -/
def compileGo (idx : ℕ) (items : List PatternItem) (s : CompState) :
    Except CompileError CompState :=
  match items with
  | [] => .ok s
  | item :: rest =>
    match item with
    | .colorObj c =>
      compileGo (idx + 1) rest
        { s with steps := s.steps ++ [.setColor c],
                 initial := some (s.initial.getD c) }
    | .openMarker =>
      compileGo (idx + 1) rest
        { s with steps := s.steps ++ [.openLoop s.nextLoopId],
                 stack := s.nextLoopId :: s.stack,
                 nextLoopId := s.nextLoopId + 1 }
    | .closeMarker n =>
      let iter_cnt : ℤ := n.getD (-1)
      let s := if iter_cnt < 0 then { s with forever := true } else s
      match s.stack with
      | [] => .error (.closeNoOpen (idx + 1))
      | lid :: stack' =>
        compileGo (idx + 1) rest
          { s with steps := s.steps ++ [.closeLoop lid iter_cnt],
                   stack := stack' }
    | .jsonStep j =>
      if j.rgb = none ∧ j.kelvin = none then
        .error (.missingColor (idx + 1))
      else
        let color : ColorInfo :=
          { rgb := j.rgb.getD WARM_WHITE_RGB
            kelvin := if j.rgb.isSome then none else j.kelvin
            transition := j.transition
            explicit_brightness := j.brightness }
        let s := { s with steps := s.steps ++ [.setColor color],
                          initial := some (s.initial.getD color) }
        let s :=
          match j.delay with
          | some d => if d = 0 then s else { s with steps := s.steps ++ [.delay d] }
          | none => s
        compileGo (idx + 1) rest s
    | .badJson => .error (.jsonError (idx + 1))

/-- `LightSequence.create_from_pattern` (light_sequence.py lines
102-166).  On an unmatched `"["` the source raises with
`loop_stack[0]` — the oldest still-open loop **id** — interpolated into
the message. -/
def LightSequence.create_from_pattern (pattern : List PatternItem) :
    Except CompileError LightSequence :=
  match compileGo 0 pattern {} with
  | .error e => .error e
  | .ok s =>
    match s.stack.getLast? with
    | some bottomId => .error (.loopNotClosed bottomId)
    | none =>
      .ok { steps := s.steps,
            ws := { next_idx := 0, data := [],
                    color := s.initial.getD { rgb := OFF_RGB, brightness := 0 } },
            loops_forever := s.forever }

/-- Compile a pattern, run it to completion with the given fuel, and
count the set-color executions with value `X`; `none` on compile error. -/
def compileCount (pattern : List PatternItem) (X : ColorInfo) (fuel : ℕ) :
    Option ℕ :=
  (LightSequence.create_from_pattern pattern).toOption.map (countColorSets X fuel)

theorem runSteps_done (f : ℕ) (seq : LightSequence)
    (h : seq.steps.length ≤ seq.ws.next_idx) : runSteps f seq = [] := by
  cases f with
  | zero => rfl
  | succ f => simp [runSteps, h]

/-- The state of the compiled pattern `["[", X, "],n"]` just after the
open-loop step has executed, with `c` completed iterations recorded. -/
def loopSeq (X : ColorInfo) (n : ℤ) (c : ℕ) : LightSequence :=
  { steps := [.openLoop 1, .setColor X, .closeLoop 1 n],
    ws := { next_idx := 1,
            data := [(1, { open_idx := 0, loop_cnt := c })],
            color := X },
    loops_forever := false }

theorem loopSeq_count (X : ColorInfo) (N : ℕ) :
    ∀ (k c f : ℕ), c + k = N → 3 * k + 2 ≤ f →
      countColorSets X f (loopSeq X (N : ℤ) c) = k + 1 := by
  intro k
  induction k with
  | zero =>
    intro c f hc hf
    obtain ⟨f', rfl⟩ : ∃ f', f = f' + 2 := ⟨f - 2, by omega⟩
    have hcN : c = N := by omega
    subst hcN
    have h1 : ¬((c : ℤ) < 0) := by omega
    have h2 : ¬((c : ℤ) + 1 ≤ (c : ℤ)) := by omega
    simp [countColorSets, runSteps, loopSeq, execStep, dictGet, dictPop,
          h1, h2, runSteps_done]
  | succ k ih =>
    intro c f hc hf
    obtain ⟨f', rfl⟩ : ∃ f', f = f' + 3 := ⟨f - 3, by omega⟩
    have h2 : ((c : ℤ)) + 1 ≤ (N : ℤ) := by omega
    have hrec := ih (c + 1) f' (by omega) (by omega)
    simp only [countColorSets, loopSeq] at hrec ⊢
    simp [runSteps, execStep, dictGet, dictSet, h2, hrec]

theorem loop_pattern_compiles (X : ColorInfo) (N : ℕ) :
    LightSequence.create_from_pattern
      [PatternItem.openMarker, PatternItem.colorObj X,
       PatternItem.closeMarker (some (N : ℤ))] =
    .ok { steps := [.openLoop 1, .setColor X, .closeLoop 1 (N : ℤ)],
          ws := { next_idx := 0, data := [], color := X },
          loops_forever := false } := by
  have hn : ¬((N : ℤ) < 0) := by omega
  simp [LightSequence.create_from_pattern, compileGo, hn]

theorem loop_pattern_count (X : ColorInfo) (N : ℕ) :
    compileCount
      [PatternItem.openMarker, PatternItem.colorObj X,
       PatternItem.closeMarker (some (N : ℤ))] X (3 * N + 3) =
    some (N + 1) := by
  have hstep :
      runSteps (3 * N + 3)
        { steps := [.openLoop 1, .setColor X, .closeLoop 1 (N : ℤ)],
          ws := { next_idx := 0, data := [], color := X },
          loops_forever := false } =
      SeqStep.openLoop 1 :: runSteps (3 * N + 2) (loopSeq X (N : ℤ) 0) := by
    rw [show 3 * N + 3 = (3 * N + 2) + 1 by omega]
    simp [runSteps, execStep, dictGet, dictSet, loopSeq]
  have hcnt := loopSeq_count X N N 0 (3 * N + 2) (by omega) (by omega)
  simp only [compileCount, loop_pattern_compiles, Except.toOption, Option.map_some]
  simp only [countColorSets] at hcnt
  simp [countColorSets, hstep, hcnt]

/-- A sample concrete color used in witnesses and counterexamples. -/
def sampleColor : ColorInfo := { rgb := ⟨255, 0, 0⟩, brightness := 100 }

/-- C1 (counterexample): the claim says the pattern `["[", X, "],N"]`
sets the current color to X exactly N times; for N = 1 the compiled
sequence executes the set-color step twice (the close-loop step rewinds
while `loop_cnt <= total_repeats`), so the count is 2, not 1. -/
theorem C1_counterexample :
    compileCount
      [PatternItem.openMarker, PatternItem.colorObj sampleColor,
       PatternItem.closeMarker (some 1)] sampleColor 6 = some 2 ∧
    (2 : ℕ) ≠ 1 := by
  constructor
  · rfl
  · omega

/-- C1 (amended): for every color step X and N ≥ 1, compiling the
pattern `["[", X, "],N"]` and running the sequence to completion causes
the current color to be set to X exactly N + 1 times — once for the
initial pass plus N rewinds, because the close step rewinds while the
completed-iteration count is still ≤ N. -/
theorem C1_loop_executes_n_plus_one_times (X : ColorInfo) (N : ℕ)
    (hN : 1 ≤ N) :
    compileCount
      [PatternItem.openMarker, PatternItem.colorObj X,
       PatternItem.closeMarker (some (N : ℤ))] X (3 * N + 3) =
    some (N + 1) :=
  loop_pattern_count X N

/-- Witness for C1's amended theorem at X = sampleColor, N = 2. -/
theorem C1_witness :
    1 ≤ 2 ∧
    compileCount
      [PatternItem.openMarker, PatternItem.colorObj sampleColor,
       PatternItem.closeMarker (some ((2 : ℕ) : ℤ))] sampleColor (3 * 2 + 3) =
    some (2 + 1) :=
  ⟨by omega, C1_loop_executes_n_plus_one_times sampleColor 2 (by omega)⟩

/-- C2: for an unmatched `"["`, `create_from_pattern`'s error carries
`loop_stack[0]` — a loop id, not an item index.  In the pattern
`[color, "["]` the unclosed open marker is item #2, yet the error says
entry #1 (the loop id).  The unmatched-`"]"` error does carry the
correct 1-based item index. -/
theorem C2_unclosed_loop_error_uses_loop_id :
    LightSequence.create_from_pattern
      [PatternItem.colorObj sampleColor, PatternItem.openMarker] =
      .error (CompileError.loopNotClosed 1) ∧
    (1 : ℕ) ≠ 2 ∧
    LightSequence.create_from_pattern
      [PatternItem.colorObj sampleColor, PatternItem.closeMarker (some 2)] =
      .error (CompileError.closeNoOpen 2) := by
  refine ⟨rfl, by omega, rfl⟩

/-- C7: once `next_index` is at or past the end of the step list, every
further `runNextStep` call returns done = true and leaves the sequence
(workspace included) completely unchanged. -/
theorem C7_runNextStep_idempotent_at_end (seq : LightSequence)
    (h : seq.steps.length ≤ seq.ws.next_idx) :
    seq.runNextStep = some (seq, true) := by
  simp [LightSequence.runNextStep, h]

/-- An exhausted sequence used to witness C7. -/
def doneSeq : LightSequence :=
  { steps := [SeqStep.delay 1],
    ws := { next_idx := 5, data := [], color := {} },
    loops_forever := false }

/-- Witness for C7 at a concrete exhausted sequence. -/
theorem C7_witness :
    doneSeq.steps.length ≤ doneSeq.ws.next_idx ∧
    doneSeq.runNextStep = some (doneSeq, true) :=
  ⟨by decide, C7_runNextStep_idempotent_at_end doneSeq (by decide)⟩

/-! ## Interpolation properties (claim C3) -/

@[ext] theorem RGBv.ext {x y : RGBv} (hr : x.r = y.r) (hg : x.g = y.g)
    (hb : x.b = y.b) : x = y := by
  cases x
  cases y
  simp_all

theorem interpolated_to_kelvin_branch (a b : ColorInfo) (am : ℚ) (k1 k2 : ℤ)
    (h1 : a.kelvin = some k1) (h2 : b.kelvin = some k2) :
    a.interpolated_to b am =
      { rgb := a.rgb
        brightness := a.brightness + (b.brightness - a.brightness) * am
        kelvin := some (truncQ ((k1 : ℚ) + ((k2 : ℚ) - (k1 : ℚ)) * am))
        transition := none
        explicit_brightness := a.explicit_brightness } := by
  unfold ColorInfo.interpolated_to
  rw [h1, h2]

theorem interpolated_to_rgb_branch (a b : ColorInfo) (am : ℚ)
    (h : a.kelvin = none ∨ b.kelvin = none) :
    a.interpolated_to b am =
      { rgb := ⟨((interp1 a.rgb.r b.rgb.r am : ℤ) : ℚ),
                ((interp1 a.rgb.g b.rgb.g am : ℤ) : ℚ),
                ((interp1 a.rgb.b b.rgb.b am : ℤ) : ℚ)⟩
        brightness := ((interp1 a.brightness b.brightness am : ℤ) : ℚ)
        kelvin := none
        transition := none
        explicit_brightness := a.explicit_brightness } := by
  unfold ColorInfo.interpolated_to
  rcases h with h | h
  · rw [h]
  · rw [h]
    cases a.kelvin <;> rfl

/-- The properties of `interpolated_to` asserted by claim C3, amended
where the code differs from the claim's literal wording: the amount-0
result agrees with the start point and the amount-1 result agrees with
the end point on kelvin and brightness, the amount-1 rgb agrees with the
end point only outside the kelvin branch (inside it the rgb is carried
from the start point), `explicit_brightness` is carried from the start
point, `transition` is always dropped, the kelvin branch interpolates
kelvin (truncated) and brightness, and the rgb branch interpolates the
(r, g, b, brightness) 4-tuple with truncation toward zero. -/
def InterpProps (a b : ColorInfo) (am : ℚ) : Prop :=
  ((a.interpolated_to b 0).rgb = a.rgb ∧
   (a.interpolated_to b 0).brightness = a.brightness ∧
   (a.interpolated_to b 0).kelvin = a.kelvin) ∧
  ((a.interpolated_to b 1).kelvin = b.kelvin ∧
   (a.interpolated_to b 1).brightness = b.brightness ∧
   (a.kelvin = none → (a.interpolated_to b 1).rgb = b.rgb) ∧
   (a.kelvin ≠ none → (a.interpolated_to b 1).rgb = a.rgb)) ∧
  ((a.interpolated_to b am).explicit_brightness = a.explicit_brightness ∧
   (a.interpolated_to b am).transition = none) ∧
  (∀ k1 k2, a.kelvin = some k1 → b.kelvin = some k2 →
    (a.interpolated_to b am).kelvin =
      some (truncQ ((k1 : ℚ) + ((k2 : ℚ) - (k1 : ℚ)) * am)) ∧
    (a.interpolated_to b am).brightness =
      a.brightness + (b.brightness - a.brightness) * am) ∧
  (a.kelvin = none ∨ b.kelvin = none →
    (a.interpolated_to b am).rgb =
      ⟨((interp1 a.rgb.r b.rgb.r am : ℤ) : ℚ),
       ((interp1 a.rgb.g b.rgb.g am : ℤ) : ℚ),
       ((interp1 a.rgb.b b.rgb.b am : ℤ) : ℚ)⟩ ∧
    (a.interpolated_to b am).brightness =
      ((interp1 a.brightness b.brightness am : ℤ) : ℚ))

theorem interp1_zero_cast {t1 : ℚ} (h : isIntQ t1) (t2 : ℚ) :
    ((interp1 t1 t2 0 : ℤ) : ℚ) = t1 := by
  rw [interp1_zero, truncQ_of_isIntQ h]

theorem interp1_one_cast (t1 : ℚ) {t2 : ℚ} (h : isIntQ t2) :
    ((interp1 t1 t2 1 : ℤ) : ℚ) = t2 := by
  rw [interp1_one, truncQ_of_isIntQ h]

/-- C3 (amended): endpoint, carrying and mechanism properties of
`interpolated_to`, for colors with integer-valued rgb and brightness and
with matching kelvin presence; the amount-1 rgb agrees with the end
point only in the rgb branch (the kelvin branch carries the start
point's rgb); plus the concrete truncation direction (interpolating 0 to
3 at amount 1/2 yields 1) and the exact midpoint of rgb (0,0,0) at
brightness 0 and rgb (100,200,100) at brightness 100. -/
theorem C3_interpolated_to_endpoints (a b : ColorInfo) (am : ℚ)
    (ha : a.isIntegral) (hb : b.isIntegral)
    (hk : a.kelvin.isSome = b.kelvin.isSome) :
    InterpProps a b am ∧
    interp1 0 3 (1 / 2) = 1 ∧
    ColorInfo.interpolated_to { rgb := ⟨0, 0, 0⟩, brightness := 0 }
      { rgb := ⟨100, 200, 100⟩, brightness := 100 } (1 / 2) =
      { rgb := ⟨50, 100, 50⟩, brightness := 50 } := by
  obtain ⟨har, hag, hab, habr⟩ := ha
  obtain ⟨hbr, hbg, hbb, hbbr⟩ := hb
  refine ⟨?_, ?_, ?_⟩
  case refine_2 =>
    unfold interp1
    rw [show (0 : ℚ) + ((3 : ℚ) - 0) * (1 / 2) = 3 / 2 by norm_num,
        truncQ_eq_floor_ceil, if_pos (by norm_num : (0 : ℚ) ≤ 3 / 2)]
    norm_num
  case refine_3 =>
    have h1 : ((interp1 0 100 (1 / 2) : ℤ) : ℚ) = 50 := by
      unfold interp1
      rw [show (0 : ℚ) + ((100 : ℚ) - 0) * (1 / 2) = ((50 : ℤ) : ℚ) by norm_num,
          truncQ_intCast]
      norm_num
    have h2 : ((interp1 0 200 (1 / 2) : ℤ) : ℚ) = 100 := by
      unfold interp1
      rw [show (0 : ℚ) + ((200 : ℚ) - 0) * (1 / 2) = ((100 : ℤ) : ℚ) by norm_num,
          truncQ_intCast]
      norm_num
    rw [interpolated_to_rgb_branch _ _ _ (Or.inl rfl)]
    simp only [one_div] at h1 h2
    simp [h1, h2]
  unfold InterpProps
  cases hak : a.kelvin with
  | some k1 =>
    cases hbk : b.kelvin with
    | none => rw [hak, hbk] at hk; simp at hk
    | some k2 =>
      have e0 := interpolated_to_kelvin_branch a b 0 k1 k2 hak hbk
      have e1 := interpolated_to_kelvin_branch a b 1 k1 k2 hak hbk
      have eAm := interpolated_to_kelvin_branch a b am k1 k2 hak hbk
      refine ⟨⟨?_, ?_, ?_⟩, ⟨?_, ?_, ?_, ?_⟩, ⟨?_, ?_⟩, ?_, ?_⟩
      · rw [e0]
      · rw [e0]; ring
      · rw [e0, show (k1 : ℚ) + ((k2 : ℚ) - (k1 : ℚ)) * 0 = (k1 : ℚ) by ring,
           truncQ_intCast]
      · rw [e1, show (k1 : ℚ) + ((k2 : ℚ) - (k1 : ℚ)) * 1 = (k2 : ℚ) by ring,
           truncQ_intCast]
      · rw [e1]; ring
      · intro hcon; simp at hcon
      · intro _; rw [e1]
      · rw [eAm]
      · rw [eAm]
      · intro k1' k2' h1 h2
        rw [Option.some_inj] at h1 h2
        subst h1; subst h2
        rw [eAm]
        exact ⟨rfl, rfl⟩
      · intro hcon
        rcases hcon with hcon | hcon <;> simp at hcon
  | none =>
    cases hbk : b.kelvin with
    | some k2 => rw [hak, hbk] at hk; simp at hk
    | none =>
      have e0 := interpolated_to_rgb_branch a b 0 (Or.inl hak)
      have e1 := interpolated_to_rgb_branch a b 1 (Or.inl hak)
      have eAm := interpolated_to_rgb_branch a b am (Or.inl hak)
      refine ⟨⟨?_, ?_, ?_⟩, ⟨?_, ?_, ?_, ?_⟩, ⟨?_, ?_⟩, ?_, ?_⟩
      · rw [e0]
        exact RGBv.ext (interp1_zero_cast har _) (interp1_zero_cast hag _)
          (interp1_zero_cast hab _)
      · rw [e0]; exact interp1_zero_cast habr _
      · rw [e0]
      · rw [e1]
      · rw [e1]; exact interp1_one_cast _ hbbr
      · intro _
        rw [e1]
        exact RGBv.ext (interp1_one_cast _ hbr) (interp1_one_cast _ hbg)
          (interp1_one_cast _ hbb)
      · intro hcon; exact absurd rfl hcon
      · rw [eAm]
      · rw [eAm]
      · intro k1' k2' h1 h2
        simp at h1
      · intro _
        rw [eAm]
        exact ⟨rfl, rfl⟩

/-- A second sample color, kelvin-free with integer components. -/
def otherColor : ColorInfo := { rgb := ⟨0, 255, 0⟩, brightness := 50 }

/-- Witness for C3's amended theorem at concrete colors and amount 1/2. -/
theorem C3_witness :
    sampleColor.isIntegral ∧ otherColor.isIntegral ∧
    sampleColor.kelvin.isSome = otherColor.kelvin.isSome ∧
    (InterpProps sampleColor otherColor (1 / 2) ∧
     interp1 0 3 (1 / 2) = 1 ∧
     ColorInfo.interpolated_to { rgb := ⟨0, 0, 0⟩, brightness := 0 }
       { rgb := ⟨100, 200, 100⟩, brightness := 100 } (1 / 2) =
       { rgb := ⟨50, 100, 50⟩, brightness := 50 }) :=
  ⟨by decide, by decide, by decide,
   C3_interpolated_to_endpoints sampleColor otherColor (1 / 2)
     (by decide) (by decide) (by decide)⟩

/-- C3 (counterexample): the claim's literal reading fails on the code:
with both colors carrying kelvin, the amount-1 result keeps the start
point's rgb rather than the end point's; with mixed kelvin presence the
amount-0 result drops the start point's kelvin; and a fractional
brightness is truncated already at amount 0. -/
theorem C3_counterexample :
    (({ rgb := ⟨1, 2, 3⟩, brightness := 10, kelvin := some 2000 } : ColorInfo).interpolated_to
       { rgb := ⟨4, 5, 6⟩, brightness := 20, kelvin := some 3000 } 1).rgb ≠
      (⟨4, 5, 6⟩ : RGBv) ∧
    (({ rgb := ⟨10, 10, 10⟩, brightness := 5, kelvin := some 2200 } : ColorInfo).interpolated_to
       { rgb := ⟨9, 9, 9⟩, brightness := 5 } 0).kelvin ≠ some 2200 ∧
    (({ rgb := ⟨0, 0, 0⟩, brightness := 1 / 2 } : ColorInfo).interpolated_to
       { rgb := ⟨0, 0, 0⟩, brightness := 1 / 2 } 0).brightness ≠ 1 / 2 := by
  refine ⟨by decide, by decide, ?_⟩
  rw [interpolated_to_rgb_branch _ _ _ (Or.inl rfl)]
  show ((interp1 (1 / 2) (1 / 2) 0 : ℤ) : ℚ) ≠ 1 / 2
  unfold interp1
  rw [show (1 / 2 : ℚ) + ((1 / 2 : ℚ) - 1 / 2) * 0 = 1 / 2 by norm_num,
      truncQ_eq_floor_ceil, if_pos (by norm_num : (0 : ℚ) ≤ 1 / 2)]
  norm_num

/-! ## Wrapped light state tracker (wrapped_light_state.py) -/

/-- A tracked Home Assistant attribute value (brightness number, hs/xy
pair, rgb triple).  The tracker never inspects values beyond their
presence, so the constructors only need to carry the data shapes that
occur. -/
inductive AttrValue where
  | num (q : ℚ)
  | pair (x y : ℚ)
  | triple (x y z : ℚ)
deriving DecidableEq

/-- The attribute reads `WrappedLightState` performs on the tracked
`state.attributes` dict; every key the source ever calls `.get` on.
Absent keys are `none`. -/
structure Attrs where
  brightness : Option AttrValue := none
  color_mode : Option String := none
  rgb_color : Option AttrValue := none
  hs_color : Option AttrValue := none
  xy_color : Option AttrValue := none
  color_temp : Option AttrValue := none
deriving DecidableEq

/-- `self._attrs.get(name)` for the attribute names the source uses. -/
def Attrs.get (a : Attrs) (name : String) : Option AttrValue :=
  if name = "brightness" then a.brightness
  else if name = "rgb_color" then a.rgb_color
  else if name = "hs_color" then a.hs_color
  else if name = "xy_color" then a.xy_color
  else if name = "color_temp" then a.color_temp
  else none

/-- An HA state object as consumed by `update`: `state.state` is a
string, `state.attributes` may be falsy (None/empty). -/
structure HAState where
  state : String
  attributes : Option Attrs := none
deriving DecidableEq

/-- `WrappedLightState.__init__`: `_state = None`, `_attrs = {}`,
`_frozen = False`. -/
structure WrappedLightState where
  state : Option String := none
  attrs : Attrs := {}
  frozen : Bool := false
deriving DecidableEq

/-- `WrappedLightState.is_on`. -/
def WrappedLightState.is_on (w : WrappedLightState) : Prop :=
  w.state = some "on"

instance (w : WrappedLightState) : Decidable w.is_on := by
  unfold WrappedLightState.is_on; infer_instance

/-- `WrappedLightState.update` (lines 58-63): no-op while frozen,
otherwise overwrite tracked state and attributes (`{}` when the incoming
attributes are falsy). -/
def WrappedLightState.update (w : WrappedLightState) (s : HAState) :
    WrappedLightState :=
  if w.frozen then w
  else { w with state := some s.state, attrs := s.attributes.getD {} }

/-- `WrappedLightState.freeze` (lines 65-67). -/
def WrappedLightState.freeze (w : WrappedLightState) : WrappedLightState :=
  { w with frozen := true }

/-- `WrappedLightState.unfreeze` (lines 69-71). -/
def WrappedLightState.unfreeze (w : WrappedLightState) : WrappedLightState :=
  { w with frozen := false }

/-- `WrappedLightState._color_attr_for_mode` (lines 97-116). -/
def WrappedLightState.color_attr_for_mode (a : Attrs)
    (color_mode : Option String) : Option String :=
  if color_mode = some "color_temp" then some "color_temp"
  else if color_mode = some "xy" then
    (if a.xy_color.isSome then some "xy_color"
     else if a.hs_color.isSome then some "hs_color"
     else none)
  else if color_mode = some "hs" then some "hs_color"
  else if color_mode = some "rgb" ∨ color_mode = some "rgbw" ∨
          color_mode = some "rgbww" then some "rgb_color"
  else
    ["rgb_color", "hs_color", "xy_color", "color_temp"].find?
      (fun n => (a.get n).isSome)

/-- `WrappedLightState.restore_params` (lines 73-95), as the
insertion-ordered key/value list of the returned dict. -/
def WrappedLightState.restore_params (w : WrappedLightState) :
    List (String × AttrValue) :=
  if ¬ w.is_on then []
  else
    let params : List (String × AttrValue) :=
      match w.attrs.brightness with
      | some v => [("brightness", v)]
      | none => []
    match WrappedLightState.color_attr_for_mode w.attrs w.attrs.color_mode with
    | some attr =>
      (match w.attrs.get attr with
       | some v => params ++ [(attr, v)]
       | none => params)
    | none => params

/-- The color attribute selection exactly as claim C4 words it: a mode
dispatch (color_temp / xy-with-hs-fallback / hs / rgb-rgbw-rgbww)
followed, for unrecognized modes, by probing rgb_color, hs_color,
xy_color, color_temp in order for the first present value. -/
def chosenColorAttrSpec (a : Attrs) : Option String :=
  match a.color_mode with
  | some "color_temp" => some "color_temp"
  | some "xy" =>
    if a.xy_color.isSome then some "xy_color"
    else if a.hs_color.isSome then some "hs_color"
    else none
  | some "hs" => some "hs_color"
  | some "rgb" => some "rgb_color"
  | some "rgbw" => some "rgb_color"
  | some "rgbww" => some "rgb_color"
  | _ =>
    ["rgb_color", "hs_color", "xy_color", "color_temp"].find?
      (fun n => (a.get n).isSome)

/-- `restore_params` exactly as claim C4 words it: empty when not on;
otherwise brightness when present, plus the chosen color attribute when
its tracked value is present. -/
def restoreParamsSpec (w : WrappedLightState) : List (String × AttrValue) :=
  if ¬ w.is_on then []
  else
    (match w.attrs.brightness with
     | some v => [("brightness", v)]
     | none => []) ++
    (match chosenColorAttrSpec w.attrs with
     | some n =>
       (match w.attrs.get n with
        | some v => [(n, v)]
        | none => [])
     | none => [])

theorem color_attr_eq_spec (a : Attrs) :
    WrappedLightState.color_attr_for_mode a a.color_mode =
    chosenColorAttrSpec a := by
  unfold WrappedLightState.color_attr_for_mode chosenColorAttrSpec
  rcases hm : a.color_mode with _ | m
  · simp
  · by_cases h1 : m = "color_temp"
    · subst h1; simp
    · by_cases h2 : m = "xy"
      · subst h2; simp
      · by_cases h3 : m = "hs"
        · subst h3; simp
        · by_cases h4 : m = "rgb"
          · subst h4; simp
          · by_cases h5 : m = "rgbw"
            · subst h5; simp
            · by_cases h6 : m = "rgbww"
              · subst h6; simp
              · simp [h1, h2, h3, h4, h5, h6]

/-- The payload of claim C4, per tracked state `w`. -/
def RestoreParamsProps (w : WrappedLightState) : Prop :=
  w.restore_params = restoreParamsSpec w ∧
  (¬ w.is_on → w.restore_params = []) ∧
  (w.restore_params.filter (fun p => decide (p.1 ≠ "brightness"))).length ≤ 1

/-- C4: `restore_params` is empty when the light is not on (or no state
is tracked); otherwise it is brightness-when-present plus at most one
color attribute chosen by color_mode with the claimed fallbacks and
probe order, excluding attributes whose tracked value is None; this is
stated as equality with `restoreParamsSpec`, the claim's own wording.
Every operation of the tracker is a total function in this embedding,
mirroring the raise-free source. -/
theorem C4_restore_params_spec (w : WrappedLightState) :
    RestoreParamsProps w := by
  unfold RestoreParamsProps
  refine ⟨?_, ?_, ?_⟩
  · unfold WrappedLightState.restore_params restoreParamsSpec
    by_cases hon : w.is_on
    · rw [color_attr_eq_spec]
      cases hc : chosenColorAttrSpec w.attrs with
      | none => cases hb : w.attrs.brightness <;> simp [hon, hc, hb]
      | some attr =>
        cases hg : w.attrs.get attr with
        | none => cases hb : w.attrs.brightness <;> simp [hon, hc, hg, hb]
        | some v => cases hb : w.attrs.brightness <;> simp [hon, hc, hg, hb]
    · simp [hon]
  · intro hon
    unfold WrappedLightState.restore_params
    simp [hon]
  · unfold WrappedLightState.restore_params
    by_cases hon : w.is_on
    · cases hc : WrappedLightState.color_attr_for_mode w.attrs w.attrs.color_mode with
      | none => cases hb : w.attrs.brightness <;> simp [hon, hc, hb]
      | some attr =>
        cases hg : w.attrs.get attr with
        | none => cases hb : w.attrs.brightness <;> simp [hon, hc, hg, hb]
        | some v =>
          cases hb : w.attrs.brightness <;> simp [hon, hc, hg, hb] <;>
            exact le_trans (List.length_filter_le _ _) (by simp)
    · simp [hon]

/-- The tracker state of claim C8's example: a light observed on with
brightness 150, color_temp 370, color_mode "color_temp". -/
def exampleAttrs : Attrs :=
  { brightness := some (.num 150),
    color_mode := some "color_temp",
    color_temp := some (.num 370) }

/-- The example HA state observed by the tracker. -/
def exampleHAState : HAState :=
  { state := "on", attributes := some exampleAttrs }

/-- A fresh tracker (`WrappedLightState()`). -/
def initWLS : WrappedLightState := {}

theorem foldl_update_frozen (us : List HAState) :
    ∀ w : WrappedLightState, w.frozen = true →
      List.foldl WrappedLightState.update w us = w := by
  induction us with
  | nil => intro w _; rfl
  | cons u rest ih =>
    intro w h
    have hu : w.update u = w := by simp [WrappedLightState.update, h]
    simp only [List.foldl_cons, hu]
    exact ih w h

/-- Witness example instantiation for C4 at the frozen example tracker. -/
theorem C4_witness :
    RestoreParamsProps ((initWLS.update exampleHAState).freeze) :=
  C4_restore_params_spec ((initWLS.update exampleHAState).freeze)

/-- The payload of claim C8: while frozen, `update` is a no-op;
`freeze` is idempotent and alters no tracked values; `restore_params`
after freezing is unchanged by any number of intervening updates; and
for the example light observed on with brightness 150, color_temp 370,
color_mode "color_temp", it stays exactly
`{brightness: 150, color_temp: 370}`. -/
def FrozenStableProps (w : WrappedLightState) (s : HAState)
    (us : List HAState) : Prop :=
  (w.frozen = true → w.update s = w) ∧
  w.freeze.freeze = w.freeze ∧
  w.freeze.state = w.state ∧
  w.freeze.attrs = w.attrs ∧
  List.foldl WrappedLightState.update w.freeze us = w.freeze ∧
  (List.foldl WrappedLightState.update w.freeze us).restore_params =
    w.freeze.restore_params ∧
  (List.foldl WrappedLightState.update
      ((initWLS.update exampleHAState).freeze) us).restore_params =
    [("brightness", AttrValue.num 150), ("color_temp", AttrValue.num 370)]

/-- C8: the frozen tracker is inert — updates while frozen are no-ops,
freeze is idempotent and non-mutating, and `restore_params` after
freezing is invariant under any sequence of ignored updates; at the
example on-state it stays exactly brightness 150 / color_temp 370. -/
theorem C8_frozen_tracker_stable (w : WrappedLightState) (s : HAState)
    (us : List HAState) : FrozenStableProps w s us := by
  have hfold := foldl_update_frozen us w.freeze rfl
  have hfold2 :=
    foldl_update_frozen us ((initWLS.update exampleHAState).freeze) rfl
  refine ⟨?_, rfl, rfl, rfl, hfold, by rw [hfold], ?_⟩
  · intro h
    simp [WrappedLightState.update, h]
  · rw [hfold2]
    rfl

/-- Witness for C8 at a concrete tracker, state and update list. -/
theorem C8_witness :
    FrozenStableProps initWLS exampleHAState
      [exampleHAState, { state := "off" }] :=
  C8_frozen_tracker_stable initWLS exampleHAState
    [exampleHAState, { state := "off" }]

/-! ## Notification scheduler (light.py) -/

/-- One entry of `_active_sequences`: the dict key (notify id) and the
sequence's priority, the only data the scheduler claims depend on. -/
structure Entry where
  id : String
  priority : ℤ
deriving DecidableEq

/-- The loop body of `_get_top_sequences` (light.py lines 424-434),
carrying the running `top_prio`. -/
def getTopSequencesGo (top_prio : ℤ) : List Entry → List Entry
  | [] => []
  | e :: rest =>
    if e.priority < top_prio then []
    else e :: getTopSequencesGo e.priority rest

/-- `_get_top_sequences`: `top_prio` starts at 0. -/
def getTopSequences (seqs : List Entry) : List Entry :=
  getTopSequencesGo 0 seqs

/-- The branch structure of `_process_sequence_list` (light.py lines
436-512): with a nonempty top list the first top sequence drives the
light; with an empty one the code only logs "Sequence list empty" and
sends nothing. -/
def processSequenceListTop (seqs : List Entry) : Option Entry :=
  match getTopSequences seqs with
  | [] => none
  | top :: _ => some top

/-- Python dict assignment `new_dict[k] = v` on an insertion-ordered
entry list: overwrite in place when the id is present, append
otherwise. -/
def dictInsertEntry (l : List Entry) (e : Entry) : List Entry :=
  if l.any (fun x => decide (x.id = e.id)) then
    l.map (fun x => if x.id = e.id then e else x)
  else l ++ [e]

/-- The `for it_id, it_seq in it` loop of the `ACTION_CYCLE_SAME`
handler (light.py lines 644-656): insert the old top entry right before
the first entry whose priority drops below it, then sentinel
`top_prio = -1`. -/
def cycleGo (top : Entry) (topPrio : ℤ) (acc : List Entry) :
    List Entry → List Entry
  | [] => acc
  | e :: rest =>
    if topPrio > e.priority then
      cycleGo top (-1) (dictInsertEntry (dictInsertEntry acc top) e) rest
    else cycleGo top topPrio (dictInsertEntry acc e) rest

/-- The `ACTION_CYCLE_SAME` handler: no-op on an empty active set or
when the top entry is the "off" key. -/
def cycleSame (seqs : List Entry) : List Entry :=
  match seqs with
  | [] => seqs
  | top :: rest =>
    if top.id = "off" then seqs
    else cycleGo top top.priority [] rest

/-- Stable insertion into a descending-sorted accumulator: the new
element goes after every element with priority ≥ its own. -/
def insertDesc (l : List Entry) (e : Entry) : List Entry :=
  match l with
  | [] => [e]
  | x :: xs =>
    if x.priority < e.priority then e :: x :: xs else x :: insertDesc xs e

/-- `_sort_active_sequences` (light.py lines 415-422): stable sort
descending by priority (`sorted` with key `-priority`). -/
def sortDesc (l : List Entry) : List Entry := l.foldl insertDesc []

/-- Sorted descending by priority. -/
def SortedDesc (l : List Entry) : Prop :=
  List.Pairwise (fun a b => b.priority ≤ a.priority) l

theorem getTopGo_tied (m : ℤ) :
    ∀ l : List Entry, (∀ x ∈ l, x.priority ≤ m) →
      getTopSequencesGo m l =
        l.takeWhile (fun x => decide (x.priority = m)) := by
  intro l
  induction l with
  | nil => intro _; rfl
  | cons x xs ih =>
    intro h
    by_cases hx : x.priority < m
    · have hne : ¬ x.priority = m := by omega
      simp [getTopSequencesGo, hx, List.takeWhile, hne]
    · have hxm : x.priority = m :=
        le_antisymm (h x (List.mem_cons_self x xs)) (not_lt.mp hx)
      have hrest : ∀ y ∈ xs, y.priority ≤ m :=
        fun y hy => h y (List.mem_cons_of_mem x hy)
      simp [getTopSequencesGo, hx, List.takeWhile, hxm, ih hrest]

theorem getTop_sorted_tied (e : Entry) (rest : List Entry)
    (hs : SortedDesc (e :: rest)) (h0 : 0 ≤ e.priority) :
    getTopSequences (e :: rest) =
      (e :: rest).takeWhile (fun x => decide (x.priority = e.priority)) := by
  have hbound : ∀ x ∈ rest, x.priority ≤ e.priority :=
    (List.pairwise_cons.mp hs).1
  have hnl : ¬ e.priority < 0 := not_lt.mpr h0
  simp [getTopSequences, getTopSequencesGo, hnl, List.takeWhile,
        getTopGo_tied e.priority rest hbound]

/-- The payload of claim C5 (amended with max priority ≥ 0): the top
list is the maximal tied prefix, the concrete
[1000, 1000, 500, 0("off")] sorted active set has exactly the two
1000-priority entries on top, and cycling moves the previous top just
after the next same-priority entry with both priorities still 1000. -/
def TopTiedProps (e : Entry) (rest : List Entry) : Prop :=
  getTopSequences (e :: rest) =
    (e :: rest).takeWhile (fun x => decide (x.priority = e.priority)) ∧
  getTopSequences
      [⟨"b", 1000⟩, ⟨"c", 1000⟩, ⟨"a", 500⟩, ⟨"off", 0⟩] =
    [⟨"b", 1000⟩, ⟨"c", 1000⟩] ∧
  cycleSame [⟨"b", 1000⟩, ⟨"c", 1000⟩, ⟨"a", 500⟩, ⟨"off", 0⟩] =
    [⟨"c", 1000⟩, ⟨"b", 1000⟩, ⟨"a", 500⟩, ⟨"off", 0⟩]

/-- C5 (amended): for every active set sorted descending by priority
whose maximum priority is ≥ 0, `_get_top_sequences` returns exactly the
maximal contiguous prefix tied at the maximum; with priorities
[500, 1000, 1000, 0("off")] the top set is exactly the two 1000-priority
entries, and `ACTION_CYCLE_SAME` moves the previous top just after the
next same-priority entry, leaving both priorities at 1000. -/
theorem C5_top_tied_prefix (e : Entry) (rest : List Entry)
    (hs : SortedDesc (e :: rest)) (h0 : 0 ≤ e.priority) :
    TopTiedProps e rest := by
  refine ⟨getTop_sorted_tied e rest hs h0, by decide, by decide⟩

/-- Witness for C5 at the claim's concrete sorted active set. -/
theorem C5_witness :
    SortedDesc [⟨"b", 1000⟩, ⟨"c", 1000⟩, ⟨"a", 500⟩, ⟨"off", 0⟩] ∧
    (0 : ℤ) ≤ (Entry.mk "b" 1000).priority ∧
    TopTiedProps ⟨"b", 1000⟩ [⟨"c", 1000⟩, ⟨"a", 500⟩, ⟨"off", 0⟩] :=
  ⟨by unfold SortedDesc; decide, by decide,
   C5_top_tied_prefix ⟨"b", 1000⟩ [⟨"c", 1000⟩, ⟨"a", 500⟩, ⟨"off", 0⟩]
     (by unfold SortedDesc; decide) (by decide)⟩

/-- C5 (counterexample): the claim as stated fails when every priority
is negative — `top_prio` starts at 0, so the singleton active set at
priority -1 yields an empty top list instead of the tied prefix. -/
theorem C5_counterexample :
    getTopSequences [(⟨"x", -1⟩ : Entry)] = [] ∧
    [(⟨"x", -1⟩ : Entry)].takeWhile
      (fun x => decide (x.priority = (Entry.mk "x" (-1)).priority)) =
      [⟨"x", -1⟩] ∧
    ([] : List Entry) ≠ [(⟨"x", -1⟩ : Entry)] := by
  refine ⟨by decide, by decide, by decide⟩

/-- The payload of claim C10: a sorted active set whose first priority
is negative produces an empty top list and the "Sequence list empty"
branch; with first priority ≥ 0 the empty branch is unreachable. -/
def TopEmptyProps (e : Entry) (rest : List Entry) : Prop :=
  (e.priority < 0 →
     getTopSequences (e :: rest) = [] ∧
     processSequenceListTop (e :: rest) = none) ∧
  (0 ≤ e.priority →
     getTopSequences (e :: rest) ≠ [] ∧
     processSequenceListTop (e :: rest) ≠ none)

/-- C10: `_get_top_sequences` starts its running maximum at 0, so a
non-empty sorted active set whose first entry has negative priority
returns the empty list and `_process_sequence_list` reaches its
"Sequence list empty" branch, sending nothing; for a non-empty set with
maximum priority ≥ 0 the empty-top-set branch is unreachable. -/
theorem C10_negative_priorities_empty_top (e : Entry) (rest : List Entry)
    (hs : SortedDesc (e :: rest)) : TopEmptyProps e rest := by
  constructor
  · intro h
    have hempty : getTopSequences (e :: rest) = [] := by
      simp [getTopSequences, getTopSequencesGo, h]
    exact ⟨hempty, by simp [processSequenceListTop, hempty]⟩
  · intro h
    have hnl : ¬ e.priority < 0 := not_lt.mpr h
    have hcons : getTopSequences (e :: rest) =
        e :: getTopSequencesGo e.priority rest := by
      simp [getTopSequences, getTopSequencesGo, hnl]
    exact ⟨by simp [hcons], by simp [processSequenceListTop, hcons]⟩

/-- Witness for C10 at a concrete sorted two-entry active set with a
negative maximum. -/
theorem C10_witness :
    SortedDesc [⟨"x", -5⟩, ⟨"y", -7⟩] ∧
    TopEmptyProps ⟨"x", -5⟩ [⟨"y", -7⟩] :=
  ⟨by unfold SortedDesc; decide,
   C10_negative_priorities_empty_top ⟨"x", -5⟩ [⟨"y", -7⟩]
     (by unfold SortedDesc; decide)⟩

/-! ## Peek boost and priority restore (claim C6) -/

/-- The fields of the queued ADD item's `_NotificationSequence` that the
peek logic reads (light.py lines 585-629). -/
structure AddItem where
  notify_id : String
  priority : ℤ
  peek_enabled : Bool
  clear_delay : Option ℚ
  loops_forever : Bool
deriving DecidableEq

/-- Outcome of the ADD handler's peek block: the sequence's priority
after the block, whether a restore timer was scheduled via
`async_call_later`, and the priority value captured by
`restore_priority`'s default argument (evaluated when the closure is
defined, i.e. before the boost). -/
structure AddPeekResult where
  newPriority : ℤ
  timerScheduled : Bool
  capturedPriority : ℤ
deriving DecidableEq

/-- The peek-boost block of the ADD handler (light.py lines 588-625):
the `restore_priority` closure captures the pre-boost priority; when
peeking applies, the priority is raised by `MAXIMUM_PRIORITY` and a
restore timer is scheduled unless the sequence auto-clears
(`clear_delay == 0` and not `loops_forever`). -/
def handleAddPeek (item : AddItem) (peek_duration : ℤ) : AddPeekResult :=
  let captured := item.priority
  if 0 < peek_duration ∧ item.peek_enabled = true ∧ item.notify_id ≠ "off" then
    let auto_clears : Bool :=
      decide (item.clear_delay = some 0 ∧ item.loops_forever = false)
    { newPriority := item.priority + MAXIMUM_PRIORITY,
      timerScheduled := !auto_clears,
      capturedPriority := captured }
  else
    { newPriority := item.priority, timerScheduled := false,
      capturedPriority := captured }

/-- The `restore_priority` callback (light.py lines 588-605): look the
notify id up in the active set; if present, set its priority to the
captured value and re-sort; otherwise do nothing. -/
def restorePriority (active : List Entry) (notify_id : String)
    (priority : ℤ) : List Entry :=
  if active.any (fun e => decide (e.id = notify_id)) then
    sortDesc (active.map
      (fun e => if e.id = notify_id then { e with priority := priority } else e))
  else active

theorem insertDesc_perm (l : List Entry) (e : Entry) :
    (insertDesc l e).Perm (e :: l) := by
  induction l with
  | nil => simp [insertDesc]
  | cons x xs ih =>
    unfold insertDesc
    by_cases h : x.priority < e.priority
    · simp [h]
    · simp only [h, if_false, ite_false]
      exact (List.Perm.cons x ih).trans (List.Perm.swap e x xs)

theorem foldl_insertDesc_perm (l : List Entry) :
    ∀ acc, (List.foldl insertDesc acc l).Perm (acc ++ l) := by
  induction l with
  | nil => intro acc; simp
  | cons x xs ih =>
    intro acc
    simp only [List.foldl_cons]
    exact ((ih _).trans
      ((insertDesc_perm acc x).append_right xs)).trans List.perm_middle.symm

theorem sortDesc_perm (l : List Entry) : (sortDesc l).Perm l := by
  simpa using foldl_insertDesc_perm l []

/-- The payload of claim C6. -/
def PeekBoostProps (item : AddItem) (pd : ℤ) (active : List Entry) : Prop :=
  ((0 < pd ∧ item.peek_enabled = true ∧ item.notify_id ≠ "off") →
    (handleAddPeek item pd).newPriority = item.priority + MAXIMUM_PRIORITY ∧
    (∀ other : ℤ, 0 ≤ item.priority → other < MAXIMUM_PRIORITY →
       other < (handleAddPeek item pd).newPriority) ∧
    ((handleAddPeek item pd).timerScheduled = false ↔
       (item.clear_delay = some 0 ∧ item.loops_forever = false))) ∧
  (handleAddPeek item pd).capturedPriority = item.priority ∧
  ((∀ e ∈ active, e.id ≠ item.notify_id) →
     restorePriority active item.notify_id
       (handleAddPeek item pd).capturedPriority = active) ∧
  (∀ e ∈ restorePriority active item.notify_id
       (handleAddPeek item pd).capturedPriority,
     e.id = item.notify_id → e.priority = item.priority) ∧
  ((∃ e ∈ active, e.id = item.notify_id) →
     ∃ e ∈ restorePriority active item.notify_id
         (handleAddPeek item pd).capturedPriority,
       e.id = item.notify_id ∧ e.priority = item.priority)

/-- C6: with peeking enabled, a nonzero peek window and a non-"off" key,
the ADD handler boosts the priority by `MAXIMUM_PRIORITY` (putting it
above every other priority below that constant regardless of its
nonnegative nominal value); the restore timer is skipped exactly when
`clear_delay == 0` and the sequence does not loop forever; the restore
callback captures the nominal (pre-boost) priority, is a no-op when the
key is absent from the active set, and otherwise sets that entry's
priority back to the nominal value. -/
theorem C6_peek_boost_and_restore (item : AddItem) (pd : ℤ)
    (active : List Entry) : PeekBoostProps item pd active := by
  have hcap : (handleAddPeek item pd).capturedPriority = item.priority := by
    unfold handleAddPeek
    split <;> rfl
  unfold PeekBoostProps
  refine ⟨?_, hcap, ?_, ?_, ?_⟩
  · intro hcond
    unfold handleAddPeek
    rw [if_pos hcond]
    refine ⟨rfl, ?_, by simp⟩
    intro other h0 hlt
    show other < item.priority + MAXIMUM_PRIORITY
    unfold MAXIMUM_PRIORITY at hlt ⊢
    omega
  · intro hnone
    have hany : ¬ (active.any (fun e => decide (e.id = item.notify_id)) = true) := by
      simp only [List.any_eq_true, decide_eq_true_eq]
      rintro ⟨e, he, heq⟩
      exact hnone e he heq
    simp [restorePriority, hany]
  · intro e he heq
    rw [hcap] at he
    unfold restorePriority at he
    by_cases hany : active.any (fun x => decide (x.id = item.notify_id)) = true
    · rw [if_pos hany] at he
      have hmem := (sortDesc_perm _).mem_iff.mp he
      obtain ⟨x, hx, hfx⟩ := List.mem_map.mp hmem
      by_cases hxid : x.id = item.notify_id
      · rw [if_pos hxid] at hfx
        rw [← hfx]
      · rw [if_neg hxid] at hfx
        rw [← hfx] at heq
        exact absurd heq hxid
    · rw [if_neg hany] at he
      exfalso
      simp only [List.any_eq_true, decide_eq_true_eq] at hany
      exact hany ⟨e, he, heq⟩
  · rintro ⟨x, hx, hxid⟩
    have hany : active.any (fun x => decide (x.id = item.notify_id)) = true := by
      simp only [List.any_eq_true, decide_eq_true_eq]
      exact ⟨x, hx, hxid⟩
    rw [hcap]
    unfold restorePriority
    rw [if_pos hany]
    refine ⟨{ x with priority := item.priority }, ?_, hxid, rfl⟩
    apply (sortDesc_perm _).mem_iff.mpr
    apply List.mem_map.mpr
    exact ⟨x, hx, by rw [if_pos hxid]⟩

/-- Witness for C6 at a concrete item, peek window and active set. -/
theorem C6_witness :
    PeekBoostProps ⟨"switch.alert", 1000, true, none, false⟩ 5
      [⟨"switch.alert", 100999999⟩, ⟨"off", 0⟩] :=
  C6_peek_boost_and_restore ⟨"switch.alert", 1000, true, none, false⟩ 5
    [⟨"switch.alert", 100999999⟩, ⟨"off", 0⟩]

/-! ## Wrapped light commands (claim C9) -/

/-- The keyword arguments `_wrapped_light_turn_on` reads: the keys
`ColorInfo.light_params` can produce plus `hs_color`, which the function
itself may add. -/
structure Kwargs where
  rgb_color : Option RGBv := none
  hs_color : Option (ℚ × ℚ) := none
  brightness : Option ℚ := none
  color_temp_kelvin : Option ℤ := none
  transition : Option ℚ := none
deriving DecidableEq

/-- An outbound service call to the real light. -/
inductive ServiceCall where
  | lightTurnOn (kwargs : Kwargs)
  | lightTurnOff
deriving DecidableEq

/-- The entity state `_wrapped_light_turn_on` / `_wrapped_light_turn_off`
read: the startup-quiet flag, the init-done flag, and whether the
wrapped bulb's `supported_color_modes` contain `ColorMode.RGB`. -/
structure EntityCtx where
  startup_quiet : Bool
  wrapped_init_done : Bool
  supports_rgb : Bool
deriving DecidableEq

/-- `_wrapped_light_turn_off` (light.py lines 826-840): returns the
reported success and the list of service calls issued. -/
def wrappedLightTurnOff (st : EntityCtx) : Bool × List ServiceCall :=
  if st.startup_quiet then (true, [])
  else if ¬ st.wrapped_init_done then (false, [])
  else (true, [ServiceCall.lightTurnOff])

/-- `_wrapped_light_turn_on` (light.py lines 785-824), parameterized by
the Home Assistant color utility `color_RGB_to_hsv` it calls.  The first
check delegates `rgb_color == OFF_RGB` to `_wrapped_light_turn_off`
before the quiet/init checks. -/
def wrappedLightTurnOn (st : EntityCtx) (rgbToHsv : RGBv → ℚ × ℚ × ℚ)
    (kwargs : Kwargs) : Bool × List ServiceCall :=
  if kwargs.rgb_color = some OFF_RGB then wrappedLightTurnOff st
  else if st.startup_quiet then (true, [])
  else if ¬ st.wrapped_init_done then (false, [])
  else
    let kwargs' :=
      match kwargs.rgb_color with
      | some rgb =>
        if kwargs.brightness = none ∧ st.supports_rgb = false then
          let hsv := rgbToHsv rgb
          { kwargs with rgb_color := none,
                        hs_color := some (hsv.1, hsv.2.1),
                        brightness := some (255 / 100 * hsv.2.2) }
        else kwargs
      | none => kwargs
    (true, [ServiceCall.lightTurnOn kwargs'])

/-- The payload of claim C9. -/
def OffRgbProps (st : EntityCtx) (rgbToHsv : RGBv → ℚ × ℚ × ℚ)
    (kwargs : Kwargs) : Prop :=
  wrappedLightTurnOn st rgbToHsv kwargs = wrappedLightTurnOff st ∧
  ∀ c ∈ (wrappedLightTurnOn st rgbToHsv kwargs).2,
    ∀ kw, c ≠ ServiceCall.lightTurnOn kw

/-- C9: whenever the `rgb_color` parameter equals (0, 0, 0) (`OFF_RGB`),
`_wrapped_light_turn_on` issues no turn_on command: it delegates to
`_wrapped_light_turn_off` and returns its result, so displaying the dim
"off" color turns the wrapped light off rather than commanding black. -/
theorem C9_off_rgb_delegates_to_turn_off (st : EntityCtx)
    (rgbToHsv : RGBv → ℚ × ℚ × ℚ) (kwargs : Kwargs)
    (h : kwargs.rgb_color = some OFF_RGB) :
    OffRgbProps st rgbToHsv kwargs := by
  have heq : wrappedLightTurnOn st rgbToHsv kwargs = wrappedLightTurnOff st := by
    unfold wrappedLightTurnOn
    rw [if_pos h]
  refine ⟨heq, ?_⟩
  rw [heq]
  unfold wrappedLightTurnOff
  by_cases hq : st.startup_quiet <;>
    by_cases hd : st.wrapped_init_done <;>
      simp [hq, hd]

/-- Witness for C9 at a concrete entity context and kwargs carrying
`rgb_color = OFF_RGB`. -/
theorem C9_witness :
    ({ rgb_color := some OFF_RGB, transition := some 1 } : Kwargs).rgb_color =
      some OFF_RGB ∧
    OffRgbProps ⟨false, true, true⟩ (fun _ => (0, 0, 0))
      { rgb_color := some OFF_RGB, transition := some 1 } :=
  ⟨rfl,
   C9_off_rgb_delegates_to_turn_off ⟨false, true, true⟩ (fun _ => (0, 0, 0))
     { rgb_color := some OFF_RGB, transition := some 1 } rfl⟩

end ColorNotify
